import Mathlib

/-!
Verification of the meeting-chatbot context-retrieval and confidence-scoring
pipeline, a shallow embedding of `src/meeting-chatbot/app/chatbot.py` together
with the provider dispatch of `src/meeting-chatbot/app/ai_handlers.py` and the
configured limit of `src/meeting-chatbot/app/config.py`.

Modelling conventions:
  - Python strings are Lean `String`s (sequences of Unicode code points, which
    matches Python `len`/slicing on the ASCII data handled here).
  - Machine floats of the confidence heuristic are embedded as exact rationals;
    Python `round(x, 2)` is embedded as rounding `100 * x` to an integer
    (CPython rounds exact half-cent ties to even on binary floats; no property
    proved below depends on the tie direction).
  - The MongoDB store and the LLM providers are external collaborators: the
    lists of candidate records they deliver and the generated answer text are
    parameters of the embedded functions, and a provider call is abstracted to
    its success/failure outcome.
  - Python dict records carry all their fields in the shallow structures below;
    the `dict.get` fallback defaults of the source are therefore never taken.
-/

namespace MeetingBot

set_option maxRecDepth 8000

/-- A word character in the sense of the regex class backslash-w restricted to
the ASCII inputs handled here: letters, digits and the underscore. -/
def isWordChar (c : Char) : Bool := c.isAlphanum || c = '_'

/-- Python `str.lower()` on the ASCII data handled here: every character
lowercased. -/
def pyLower (s : String) : String := String.mk (s.toList.map Char.toLower)

/-- Python slicing `s[:n]` on strings: the first `n` characters. -/
def pyTake (s : String) (n : Nat) : String := String.mk (s.toList.take n)

/-- Maximal runs of characters satisfying `p`, accumulating the current run in
reverse in `cur`; this is how `re.findall` with a run pattern tokenizes. -/
def runsAux (p : Char → Bool) : List Char → List Char → List (List Char)
  | [], cur => if cur.isEmpty then [] else [cur.reverse]
  | c :: cs, cur =>
    if p c then runsAux p cs (c :: cur)
    else if cur.isEmpty then runsAux p cs []
    else cur.reverse :: runsAux p cs []

/-- All maximal runs of characters satisfying `p` in `s`, as strings. -/
def wordRuns (p : Char → Bool) (s : String) : List String :=
  (runsAux p s.toList []).map (fun cs => String.mk cs)

/-- Lowercased word tokens of a question: `re.findall` of word-character runs
over `question.lower()` (chatbot.py line 128). -/
def word_tokens (s : String) : List String := wordRuns isWordChar (pyLower s)

/-- Keyword extraction of the document path (chatbot.py line 62): word tokens
of the lowercased question of length at least 3. -/
def extract_keywords (question : String) : List String :=
  (word_tokens question).filter (fun w => 3 ≤ w.length)

/-- Keyword extraction of the meeting path (chatbot.py line 128): every word
token of the lowercased question, with no length restriction. -/
def extract_keywords_all (question : String) : List String := word_tokens question

/-- Boolean list-prefix test used to implement the substring test. -/
def prefB : List Char → List Char → Bool
  | [], _ => true
  | _ :: _, [] => false
  | a :: xs, b :: ys => a = b && prefB xs ys

/-- Boolean test that `needle` occurs as a contiguous sublist of the second
argument. -/
def subAux (needle : List Char) : List Char → Bool
  | [] => needle.isEmpty
  | c :: cs => prefB needle (c :: cs) || subAux needle cs

/-- Python's `needle in hay` substring containment on strings. -/
def strIn (needle hay : String) : Bool := subAux needle.toList hay.toList

/-- Number of extracted keywords occurring in the lowercased candidate text
(chatbot.py lines 85 and 140); a keyword occurring as a substring counts once,
and duplicated keywords count separately, exactly as the Python generator sum
over the keyword list does. -/
def count_matches (keywords : List String) (content : String) : Nat :=
  keywords.countP (fun k => strIn k (pyLower content))

/-- Relevance score of a candidate text (chatbot.py lines 86 and 143):
matches divided by the number of keywords, and 0 for an empty keyword list. -/
def relevance_score (keywords : List String) (content : String) : ℚ :=
  if keywords.isEmpty then 0
  else (count_matches keywords content : ℚ) / (keywords.length : ℚ)

/-- A stored document record (models.py / the document dicts of chatbot.py). -/
structure Document where
  doc_id : String
  title : String
  content : String
  category : String
  tags : List String
deriving DecidableEq, Repr

/-- Concatenated searchable text of a document (chatbot.py line 81). -/
def document_text (d : Document) : String :=
  d.title ++ " " ++ d.content ++ " " ++ String.intercalate " " d.tags

/-- First-occurrence deduplication of fetched documents by `doc_id`
(chatbot.py lines 71-77), carrying the set of already-seen ids. -/
def dedup_by_id : List Document → List String → List Document
  | [], _ => []
  | d :: ds, seen =>
    if d.doc_id ∈ seen then dedup_by_id ds seen
    else d :: dedup_by_id ds (d.doc_id :: seen)

/-- Deduplicated candidate documents (chatbot.py lines 71-77). -/
def unique_documents (ds : List Document) : List Document := dedup_by_id ds []

/-- Insertion step of the relevance sort: the new element, which comes later
in the input than everything already placed, is inserted after every element
with a strictly larger key and before every element with a smaller-or-equal
key. -/
def insertDesc {α : Type} (key : α → ℚ) (x : α) : List α → List α
  | [] => [x]
  | h :: t => if key x < key h then h :: insertDesc key x t else x :: h :: t

/-- The relevance sort (chatbot.py lines 89 and 147): CPython
`list.sort(key=..., reverse=True)` is a stable descending sort, embedded here
as the stable descending insertion sort. -/
def sortDesc {α : Type} (key : α → ℚ) : List α → List α
  | [] => []
  | h :: t => insertDesc key h (sortDesc key t)

/-- Configured cap on context documents (config.py line 14, default 10). -/
def MAX_CONTEXT_DOCUMENTS : Nat := 10

/-- The scoring stage of `_find_relevant_documents` (chatbot.py lines 80-86):
each deduplicated fetched document is paired with its relevance score for the
length-at-least-3 keywords of the question.  The documents fetched from the
store (one `search_documents_text` call per keyword among the first 5, an
external collaborator) arrive in `docs`. -/
def scored_documents (question : String) (docs : List Document) :
    List (Document × ℚ) :=
  (unique_documents docs).map
    (fun d => (d, relevance_score (extract_keywords question) (document_text d)))

/-- The sorted candidate documents (chatbot.py line 89). -/
def sorted_documents (question : String) (docs : List Document) :
    List (Document × ℚ) :=
  sortDesc (fun p => p.2) (scored_documents question docs)

/-- `_find_relevant_documents` (chatbot.py lines 54-93): score, sort
descending, return the configured number of top documents. -/
def find_relevant_documents (question : String) (docs : List Document) :
    List (Document × ℚ) :=
  (sorted_documents question docs).take MAX_CONTEXT_DOCUMENTS

/-- An action item of a meeting summary (models.py). -/
structure ActionItem where
  task : String
  assignee : String
  due_date : String
deriving DecidableEq, Repr

/-- A stored meeting summary record (models.py / the meeting dicts). -/
structure Meeting where
  meeting_id : String
  title : String
  date : String
  participants : List String
  summary : String
  key_points : List String
  action_items : List ActionItem
  decisions : List String
  tags : List String
deriving DecidableEq, Repr

/-- Concatenated searchable text of a meeting (chatbot.py line 136). -/
def meeting_text (m : Meeting) : String :=
  m.title ++ " " ++ m.summary ++ " " ++ String.intercalate " " m.tags

/-- The scoring and filtering stage of `_find_relevant_meetings`
(chatbot.py lines 133-144): a recent meeting is kept, paired with its
relevance score, only when it has at least one keyword match.  The recent
meetings delivered by the store (`get_recent_meetings`, an external
collaborator) arrive in `recent`. -/
def relevant_scored_meetings (question : String) (recent : List Meeting) :
    List (Meeting × ℚ) :=
  recent.filterMap (fun m =>
    if 0 < count_matches (extract_keywords_all question) (meeting_text m) then
      some (m, relevance_score (extract_keywords_all question) (meeting_text m))
    else none)

/-- The sorted relevant meetings (chatbot.py line 147). -/
def sorted_meetings (question : String) (recent : List Meeting) :
    List (Meeting × ℚ) :=
  sortDesc (fun p => p.2) (relevant_scored_meetings question recent)

/-- `_find_relevant_meetings` (chatbot.py lines 118-149): score, keep the
positively matching meetings, sort descending, return the top 10. -/
def find_relevant_meetings (question : String) (recent : List Meeting) :
    List (Meeting × ℚ) :=
  (sorted_meetings question recent).take 10

/-- Python `str.strip()` with no argument: leading and trailing whitespace
removed (the source data never contains the two extra control characters
Python additionally treats as whitespace). -/
def pyStrip (s : String) : String :=
  String.mk
    (((s.toList.dropWhile Char.isWhitespace).reverse.dropWhile
        Char.isWhitespace).reverse)

/-- One document rendered into the context block (chatbot.py lines 108-114):
the f-string template, stripped; note that the full `content` field is
interpolated with no truncation. -/
def format_one_document (i : Nat) (d : Document) : String :=
  pyStrip ("\nDocument " ++ toString i ++ ": " ++ d.title ++
    "\nCategory: " ++ d.category ++
    "\nTags: " ++ String.intercalate ", " d.tags ++
    "\nContent: " ++ d.content ++ "\n")

/-- `_format_document_context` (chatbot.py lines 99-116). -/
def format_document_context (docs : List Document) : String :=
  if docs.isEmpty then ""
  else String.intercalate "\n\n---\n\n"
    (docs.enum.map (fun p => format_one_document (p.1 + 1) p.2))

/-- `_format_action_items` (chatbot.py lines 178-190). -/
def format_action_items (items : List ActionItem) : String :=
  if items.isEmpty then "No action items"
  else String.intercalate "; "
    (items.map (fun it =>
      it.task ++ " (Assigned to: " ++ it.assignee ++ ", Due: " ++
        it.due_date ++ ")"))

/-- The 12-space indentation that the source-level f-string of
`_format_meeting_context` carries on every interior line. -/
def indent12 : String := "            "

/-- One meeting rendered into the context block (chatbot.py lines 165-174):
the indented f-string template, stripped; the full `summary` field is
interpolated with no truncation. -/
def format_one_meeting (i : Nat) (m : Meeting) : String :=
  pyStrip ("\n" ++ indent12 ++ "Meeting " ++ toString i ++ ": " ++ m.title ++
    "\n" ++ indent12 ++ "Date: " ++ m.date ++
    "\n" ++ indent12 ++ "Participants: " ++
      String.intercalate ", " m.participants ++
    "\n" ++ indent12 ++ "Summary: " ++ m.summary ++
    "\n" ++ indent12 ++ "Key Points: " ++
      String.intercalate ", " m.key_points ++
    "\n" ++ indent12 ++ "Action Items: " ++
      format_action_items m.action_items ++
    "\n" ++ indent12 ++ "Decisions: " ++
      String.intercalate ", " m.decisions ++
    "\n" ++ indent12)

/-- `_format_meeting_context` (chatbot.py lines 155-176). -/
def format_meeting_context (meetings : List Meeting) : String :=
  if meetings.isEmpty then "No meeting data available."
  else String.intercalate "\n\n---\n\n"
    (meetings.enum.map (fun p => format_one_meeting (p.1 + 1) p.2))

/-- `_build_context` (chatbot.py lines 14-52).  The id flags say whether the
query carried a `doc_id` / `meeting_id`; the optional records are the store
lookups for those ids; the two lists are the relevance-search results used on
the no-id path (their scores, attached in place by the source, play no role in
formatting and are dropped by the callers before this point). -/
def build_context (docIdGiven meetingIdGiven : Bool)
    (docById : Option Document) (meetingById : Option Meeting)
    (relevantDocs : List Document) (relevantMeetings : List Meeting) :
    String :=
  let parts1 : List String :=
    if docIdGiven then
      (match docById with
       | some d => [format_document_context [d]]
       | none => [])
    else []
  let parts2 : List String :=
    if meetingIdGiven then
      (match meetingById with
       | some m => [format_meeting_context [m]]
       | none => [])
    else []
  let parts3 : List String :=
    if !docIdGiven && !meetingIdGiven then
      (if !relevantDocs.isEmpty then [format_document_context relevantDocs]
       else []) ++
      (if !relevantMeetings.isEmpty then
        [format_meeting_context relevantMeetings]
       else [])
    else []
  let parts := parts1 ++ parts2 ++ parts3
  if parts.isEmpty then "" else String.intercalate "\n\n---\n\n" parts

/-- The source-display record built by `_format_source_document`
(chatbot.py lines 318-325). -/
structure SourceDocument where
  doc_id : String
  title : String
  category : String
  content_preview : String
deriving DecidableEq, Repr

/-- `_format_source_document` (chatbot.py lines 318-325): the content preview
is the content truncated to 200 characters with "..." appended when the
content is longer than 200 characters, and the unchanged content otherwise. -/
def format_source_document (d : Document) : SourceDocument :=
  { doc_id := d.doc_id, title := d.title, category := d.category,
    content_preview :=
      if 200 < d.content.length then pyTake d.content 200 ++ "..."
      else d.content }

/-- The source-display record built by `_format_source_meeting`
(chatbot.py lines 327-334). -/
structure SourceMeeting where
  meeting_id : String
  title : String
  date : String
  summary : String
deriving DecidableEq, Repr

/-- `_format_source_meeting` (chatbot.py lines 327-334): the displayed summary
is truncated to 200 characters with "..." appended when longer than 200. -/
def format_source_meeting (m : Meeting) : SourceMeeting :=
  { meeting_id := m.meeting_id, title := m.title, date := m.date,
    summary :=
      if 200 < m.summary.length then pyTake m.summary 200 ++ "..."
      else m.summary }

/-- The fixed uncertainty phrases (chatbot.py lines 259-262). -/
def uncertainty_phrases : List String :=
  ["i don't know", "i'm not sure", "no information",
   "not mentioned", "not specified", "not available"]

/-- Python `str.split()` with no argument: maximal runs of non-whitespace. -/
def split_words (s : String) : List String :=
  wordRuns (fun c => !c.isWhitespace) s

/-- The set of words of the lowercased question (chatbot.py line 269),
modelled as the deduplicated token list; only its cardinality and membership
are ever used. -/
def question_terms (question : String) : List String :=
  (split_words (pyLower question)).dedup

/-- The set of words of the lowercased answer (chatbot.py line 270). -/
def answer_terms (answer : String) : List String :=
  (split_words (pyLower answer)).dedup

/-- Lexical term overlap of `_calculate_confidence` (chatbot.py lines
268-276): the fraction of distinct question words also present among the
answer words, and 0 when the question has no words. -/
def term_similarity (question answer : String) : ℚ :=
  if (question_terms question).isEmpty then 0
  else (((question_terms question).filter
      (fun w => (answer_terms answer).contains w)).length : ℚ) /
    ((question_terms question).length : ℚ)

/-- Python `round(x, 2)`: the exact rational rounded to hundredths. -/
def round2 (x : ℚ) : ℚ := ((round (x * 100) : ℤ) : ℚ) / 100

/-- `_calculate_confidence` (chatbot.py lines 248-284): 0.2 as soon as any
uncertainty phrase occurs in the lowercased answer, otherwise
`round(min(0.95, 0.7 + similarity * 0.3), 2)`. -/
def calculate_confidence (answer question : String) : ℚ :=
  if uncertainty_phrases.any (fun p => strIn p (pyLower answer)) then 0.2
  else round2 (min 0.95 (0.7 + term_similarity question answer * 0.3))

/-- The confidence attached to the response of `ask_question`
(chatbot.py lines 205-237): the fixed 0.3 when the assembled context is empty
or whitespace (an empty string strips to the empty string, so the two source
conditions collapse), and the heuristic confidence otherwise. -/
def response_confidence (context answer question : String) : ℚ :=
  if pyStrip context = "" then 0.3 else calculate_confidence answer question

/-- The provider registry after initialization (ai_handlers.py lines
171-188): which of the two handlers were successfully constructed. -/
structure AIProviderState where
  openai_handler : Bool
  gemini_handler : Bool
deriving DecidableEq, Repr

/-- `AIProvider.get_available_providers` (ai_handlers.py lines 208-215). -/
def get_available_providers (s : AIProviderState) : List String :=
  (if s.openai_handler then ["openai"] else []) ++
    (if s.gemini_handler then ["gemini"] else [])

/-- `AIProvider.get_response` dispatch (ai_handlers.py lines 190-197),
abstracted to its outcome: a successful call into the selected handler, or
the configuration `ValueError` raised when the named provider is missing or
uninitialized. -/
def get_response (s : AIProviderState) (provider : String) :
    Except String Unit :=
  if provider = "openai" && s.openai_handler then Except.ok ()
  else if provider = "gemini" && s.gemini_handler then Except.ok ()
  else Except.error ("Unsupported or unavailable AI provider: " ++ provider)

/-- The provider validation of `ask_question` (chatbot.py lines 198-200):
keep the requested provider when it is available, otherwise fall back to the
first available provider, and to the literal "openai" when none is. -/
def validate_provider (s : AIProviderState) (requested : String) : String :=
  if requested ∈ get_available_providers s then requested
  else (get_available_providers s).headD "openai"

/-- A 250-character content field, used to exercise the truncation claims. -/
def long_content : String := String.mk (List.replicate 250 'a')

/-- A concrete document whose content exceeds 200 characters. -/
def truncation_doc : Document :=
  { doc_id := "d1", title := "T", content := long_content, category := "C",
    tags := [] }

/-- The worked question of the specification's example. -/
def mongo_question : String := "What is MongoDB used for?"

/-- A concrete document containing the example text of the specification. -/
def mongo_document : Document :=
  { doc_id := "doc-mongo", title := "Databases",
    content := "MongoDB is a NoSQL database used for storing documents",
    category := "Tech", tags := [] }

/-- A concrete document sharing no keyword with the example question. -/
def bread_document : Document :=
  { doc_id := "doc-bread", title := "Cooking", content := "How to bake bread",
    category := "Food", tags := [] }

/-- A concrete meeting matching the question "budget". -/
def budget_meeting : Meeting :=
  { meeting_id := "m1", title := "Budget review", date := "2024-01-01",
    participants := ["ana"], summary := "We discussed the budget.",
    key_points := [], action_items := [], decisions := [], tags := [] }

/-! Helper lemmas about the embedded operations. -/

/-- Inserting an element is a permutation of putting it in front. -/
theorem insertDesc_perm {α : Type} (key : α → ℚ) (x : α) :
    ∀ l : List α, List.Perm (insertDesc key x l) (x :: l)
  | [] => List.Perm.refl _
  | h :: t => by
    by_cases hc : key x < key h
    · simp only [insertDesc, if_pos hc]
      exact ((insertDesc_perm key x t).cons h).trans (List.Perm.swap x h t)
    · simp only [insertDesc, if_neg hc]
      exact List.Perm.refl _

/-- The relevance sort permutes its input. -/
theorem sortDesc_perm {α : Type} (key : α → ℚ) :
    ∀ l : List α, List.Perm (sortDesc key l) l
  | [] => List.Perm.refl _
  | h :: t =>
    (insertDesc_perm key h (sortDesc key t)).trans ((sortDesc_perm key t).cons h)

/-- Membership after insertion. -/
theorem mem_insertDesc {α : Type} (key : α → ℚ) (x y : α) (l : List α) :
    y ∈ insertDesc key x l ↔ y = x ∨ y ∈ l := by
  rw [(insertDesc_perm key x l).mem_iff, List.mem_cons]

/-- Insertion preserves descending sortedness. -/
theorem pairwise_insertDesc {α : Type} (key : α → ℚ) (x : α) :
    ∀ l : List α, l.Pairwise (fun a b => key b ≤ key a) →
      (insertDesc key x l).Pairwise (fun a b => key b ≤ key a)
  | [], _ => by simp [insertDesc]
  | h :: t, hp => by
    rcases List.pairwise_cons.mp hp with ⟨hh, ht⟩
    by_cases hc : key x < key h
    · simp only [insertDesc, if_pos hc]
      refine List.pairwise_cons.mpr ⟨?_, pairwise_insertDesc key x t ht⟩
      intro y hy
      rcases (mem_insertDesc key x y t).mp hy with rfl | hy'
      · exact le_of_lt hc
      · exact hh y hy'
    · simp only [insertDesc, if_neg hc]
      push_neg at hc
      refine List.pairwise_cons.mpr ⟨?_, hp⟩
      intro y hy
      rcases List.mem_cons.mp hy with rfl | hy'
      · exact hc
      · exact (hh y hy').trans hc

/-- The relevance sort is sorted by descending key. -/
theorem sortDesc_pairwise {α : Type} (key : α → ℚ) :
    ∀ l : List α, (sortDesc key l).Pairwise (fun a b => key b ≤ key a)
  | [] => by simp [sortDesc]
  | h :: t => pairwise_insertDesc key h _ (sortDesc_pairwise key t)

/-- Insertion and filtering on a fixed key value commute in the way stability
needs: the inserted element lands in front of every element of equal key. -/
theorem filter_insertDesc {α : Type} (key : α → ℚ) (x : α) (s : ℚ) :
    ∀ l : List α,
      (insertDesc key x l).filter (fun y => decide (key y = s)) =
        if key x = s then
          x :: l.filter (fun y => decide (key y = s))
        else l.filter (fun y => decide (key y = s))
  | [] => by
    by_cases hx : key x = s <;> simp [insertDesc, List.filter_cons, hx]
  | h :: t => by
    by_cases hc : key x < key h
    · simp only [insertDesc, if_pos hc, List.filter_cons]
      by_cases hx : key x = s
      · have hh : ¬ key h = s := hx ▸ ne_of_gt hc
        simp [hx, hh, filter_insertDesc key x s t, List.filter_cons]
      · by_cases hh : key h = s <;>
          simp [hx, hh, filter_insertDesc key x s t, List.filter_cons]
    · simp only [insertDesc, if_neg hc, List.filter_cons]
      by_cases hx : key x = s <;> simp [hx]

/-- Stability of the relevance sort: the elements of any fixed key value
appear in the output exactly in their input order. -/
theorem filter_sortDesc {α : Type} (key : α → ℚ) (s : ℚ) :
    ∀ l : List α,
      (sortDesc key l).filter (fun y => decide (key y = s)) =
        l.filter (fun y => decide (key y = s))
  | [] => rfl
  | h :: t => by
    simp only [sortDesc]
    rw [filter_insertDesc key h s]
    by_cases hh : key h = s <;>
      simp [hh, filter_sortDesc key s t, List.filter_cons]

/-- A candidate never matches more often than there are keywords. -/
theorem count_matches_le (keywords : List String) (content : String) :
    count_matches keywords content ≤ keywords.length :=
  List.countP_le_length _

/-- The relevance score is nonnegative. -/
theorem relevance_score_nonneg (keywords : List String) (content : String) :
    0 ≤ relevance_score keywords content := by
  unfold relevance_score
  split
  · exact le_refl 0
  · positivity

/-- The relevance score is at most one. -/
theorem relevance_score_le_one (keywords : List String) (content : String) :
    relevance_score keywords content ≤ 1 := by
  unfold relevance_score
  split
  · norm_num
  · next he =>
    have hne : keywords ≠ [] := by
      intro h
      exact he (by simp [h])
    have hpos : 0 < (keywords.length : ℚ) := by
      exact_mod_cast List.length_pos.mpr hne
    rw [div_le_one hpos]
    exact_mod_cast count_matches_le keywords content

/-- An empty keyword list scores zero. -/
theorem relevance_score_nil (content : String) :
    relevance_score [] content = 0 := rfl

/-- A candidate with no keyword match scores zero. -/
theorem relevance_score_eq_zero (keywords : List String) (content : String)
    (h : count_matches keywords content = 0) :
    relevance_score keywords content = 0 := by
  unfold relevance_score
  split
  · rfl
  · rw [h]
    simp

/-- A candidate with a keyword match scores strictly positively. -/
theorem relevance_score_pos (keywords : List String) (content : String)
    (h : 0 < count_matches keywords content) :
    0 < relevance_score keywords content := by
  unfold relevance_score
  split
  · next he =>
    have : keywords = [] := by simpa using he
    subst this
    simp [count_matches] at h
  · next he =>
    have hne : keywords ≠ [] := by
      intro hk
      exact he (by simp [hk])
    have hlen : 0 < (keywords.length : ℚ) := by
      exact_mod_cast List.length_pos.mpr hne
    exact div_pos (by exact_mod_cast h) hlen

/-- The lexical term overlap lies between 0 and 1. -/
theorem term_similarity_bounds (question answer : String) :
    0 ≤ term_similarity question answer ∧ term_similarity question answer ≤ 1 := by
  unfold term_similarity
  split
  · exact ⟨le_refl 0, by norm_num⟩
  · next he =>
    have hne : question_terms question ≠ [] := by
      intro h
      exact he (by simp [h])
    have hpos : 0 < ((question_terms question).length : ℚ) := by
      exact_mod_cast List.length_pos.mpr hne
    constructor
    · positivity
    · rw [div_le_one hpos]
      exact_mod_cast List.length_filter_le _ _

/-- Rounding to hundredths respects integer-hundredth bounds. -/
theorem round2_bounds {x : ℚ} {a b : ℤ} (h1 : (a : ℚ) ≤ x * 100)
    (h2 : x * 100 ≤ (b : ℚ)) :
    (a : ℚ) / 100 ≤ round2 x ∧ round2 x ≤ (b : ℚ) / 100 := by
  have hr := round_eq (x * 100)
  have hlo : a ≤ round (x * 100) := by
    rw [hr]
    exact Int.le_floor.mpr (by linarith)
  have hhi : round (x * 100) ≤ b := by
    rw [hr]
    have hfl : ((⌊x * 100 + 1 / 2⌋ : ℤ) : ℚ) ≤ x * 100 + 1 / 2 := Int.floor_le _
    by_contra hcon
    push_neg at hcon
    have hc2 : ((b + 1 : ℤ) : ℚ) ≤ ((⌊x * 100 + 1 / 2⌋ : ℤ) : ℚ) := by
      exact_mod_cast hcon
    push_cast at hc2
    linarith
  have hlo2 : (a : ℚ) ≤ ((round (x * 100) : ℤ) : ℚ) := by exact_mod_cast hlo
  have hhi2 : ((round (x * 100) : ℤ) : ℚ) ≤ (b : ℚ) := by exact_mod_cast hhi
  unfold round2
  constructor <;> linarith

/-- The heuristic confidence of an answer is between 0.2 and 0.95. -/
theorem calculate_confidence_bounds (answer question : String) :
    1/5 ≤ calculate_confidence answer question ∧
      calculate_confidence answer question ≤ 19/20 := by
  unfold calculate_confidence
  split
  · norm_num
  · obtain ⟨h0, h1⟩ := term_similarity_bounds question answer
    have hge : (0.7 : ℚ) ≤ min 0.95 (0.7 + term_similarity question answer * 0.3) :=
      le_min (by norm_num) (by linarith)
    have hle : min (0.95 : ℚ) (0.7 + term_similarity question answer * 0.3) ≤ 0.95 :=
      min_le_left _ _
    have hb := round2_bounds (x := min 0.95 (0.7 + term_similarity question answer * 0.3))
      (a := 70) (b := 95) (by push_cast; linarith) (by push_cast; linarith)
    constructor
    · have := hb.1
      push_cast at this
      linarith
    · have := hb.2
      push_cast at this
      linarith

/-! The claims. -/

set_option maxRecDepth 80000 in
/-- C1 counterexample: the context block rendered for a document whose
content is 250 characters long contains the full 250-character content and no
ellipsis marker anywhere, so records rendered into the assembled context
block are not truncated to 200 characters with an ellipsis appended. -/
theorem C1_counterexample :
    200 < truncation_doc.content.length ∧
    strIn truncation_doc.content (format_document_context [truncation_doc]) =
      true ∧
    strIn "..." (format_document_context [truncation_doc]) = false :=
  ⟨by decide, by decide, by decide⟩

/-- C1 (amended): the 200-character truncation with an appended ellipsis
marker applies to the source-display records (the content preview built by
the source-document formatter and the summary built by the source-meeting
formatter), not to the records rendered into the assembled context block,
which carry the full free-text fields. -/
theorem C1_source_preview_truncates (d : Document) (m : Meeting) :
    (200 < d.content.length →
      (format_source_document d).content_preview =
        pyTake d.content 200 ++ "...") ∧
    (d.content.length ≤ 200 →
      (format_source_document d).content_preview = d.content) ∧
    (200 < m.summary.length →
      (format_source_meeting m).summary = pyTake m.summary 200 ++ "...") ∧
    (m.summary.length ≤ 200 →
      (format_source_meeting m).summary = m.summary) := by
  refine ⟨fun h => ?_, fun h => ?_, fun h => ?_, fun h => ?_⟩
  · simp [format_source_document, h]
  · simp [format_source_document, not_lt.mpr h]
  · simp [format_source_meeting, h]
  · simp [format_source_meeting, not_lt.mpr h]

/-- C1 witness: the concrete 250-character document evaluated through the
source-document formatter. -/
theorem C1_witness :
    (format_source_document truncation_doc).content_preview =
      pyTake truncation_doc.content 200 ++ "..." :=
  (C1_source_preview_truncates truncation_doc budget_meeting).1 (by decide)

/-- C2 counterexample: on the question "What is MongoDB used for?" the
document-path keyword extraction keeps "what" and "for" (both have at least 3
characters), so the keyword set is not the claimed pair, and the relevance
score of a document containing "MongoDB is a NoSQL database..." is not 1. -/
theorem C2_counterexample :
    extract_keywords mongo_question ≠ ["mongodb", "used"] ∧
    "for" ∈ extract_keywords mongo_question ∧
    "what" ∈ extract_keywords mongo_question ∧
    relevance_score (extract_keywords mongo_question)
      (document_text mongo_document) ≠ 1 := by
  refine ⟨by decide, by decide, by decide, ?_⟩
  have hc : count_matches (extract_keywords mongo_question)
      (document_text mongo_document) = 3 := by decide
  have hl : (extract_keywords mongo_question).length = 4 := by decide
  have he : ¬ ((extract_keywords mongo_question).isEmpty = true) := by decide
  unfold relevance_score
  rw [if_neg he, hc, hl]
  norm_num

/-- C2 (amended): the extraction drops only "is": it produces the keyword
list ["what", "mongodb", "used", "for"], the example document scores 3/4
(three of the four keywords occur in its text), and it still ranks first. -/
theorem C2_amended :
    extract_keywords mongo_question = ["what", "mongodb", "used", "for"] ∧
    relevance_score (extract_keywords mongo_question)
      (document_text mongo_document) = 3 / 4 ∧
    (find_relevant_documents mongo_question
        [mongo_document, bread_document]).head? =
      some (mongo_document, 3 / 4) := by
  have hc : count_matches (extract_keywords mongo_question)
      (document_text mongo_document) = 3 := by decide
  have hl : (extract_keywords mongo_question).length = 4 := by decide
  have he : ¬ ((extract_keywords mongo_question).isEmpty = true) := by decide
  have hs : relevance_score (extract_keywords mongo_question)
      (document_text mongo_document) = 3 / 4 := by
    unfold relevance_score
    rw [if_neg he, hc, hl]
    norm_num
  have hz : relevance_score (extract_keywords mongo_question)
      (document_text bread_document) = 0 :=
    relevance_score_eq_zero _ _ (by decide)
  have hu : unique_documents [mongo_document, bread_document] =
      [mongo_document, bread_document] := by decide
  refine ⟨by decide, hs, ?_⟩
  norm_num [find_relevant_documents, sorted_documents, scored_documents, hu,
    hs, hz, sortDesc, insertDesc, MAX_CONTEXT_DOCUMENTS]

/-- C3: for every keyword list and candidate text the relevance score lies in
the closed interval [0, 1], and it is 0 for the empty keyword list. -/
theorem C3_score_bounds (keywords : List String) (content : String) :
    0 ≤ relevance_score keywords content ∧
      relevance_score keywords content ≤ 1 ∧
      (keywords = [] → relevance_score keywords content = 0) :=
  ⟨relevance_score_nonneg keywords content,
   relevance_score_le_one keywords content,
   fun h => by rw [h]; exact relevance_score_nil content⟩

/-- C3 witness: the empty keyword list scores zero on a concrete text. -/
theorem C3_witness : relevance_score [] "text" = 0 :=
  (C3_score_bounds [] "text").2.2 rfl

/-- C4: the relevance sort applied to the scored documents and to the scored
meetings orders them by descending score, is stable (records of any fixed
score keep their input order), and permutes its input. -/
theorem C4_sort_stable (q : String) (docs : List Document)
    (recent : List Meeting) :
    (sorted_documents q docs).Pairwise (fun a b => b.2 ≤ a.2) ∧
    (∀ s : ℚ, (sorted_documents q docs).filter (fun y => decide (y.2 = s)) =
      (scored_documents q docs).filter (fun y => decide (y.2 = s))) ∧
    List.Perm (sorted_documents q docs) (scored_documents q docs) ∧
    (sorted_meetings q recent).Pairwise (fun a b => b.2 ≤ a.2) ∧
    (∀ s : ℚ, (sorted_meetings q recent).filter (fun y => decide (y.2 = s)) =
      (relevant_scored_meetings q recent).filter (fun y => decide (y.2 = s))) ∧
    List.Perm (sorted_meetings q recent) (relevant_scored_meetings q recent) :=
  ⟨sortDesc_pairwise _ _, fun s => filter_sortDesc _ s _, sortDesc_perm _ _,
   sortDesc_pairwise _ _, fun s => filter_sortDesc _ s _, sortDesc_perm _ _⟩

/-- C5: both searches return a prefix of their sorted candidate list, of
length at most the configured maximum: MAX_CONTEXT_DOCUMENTS (default 10)
documents and 10 meetings. -/
theorem C5_top_n (q : String) (docs : List Document) (recent : List Meeting) :
    MAX_CONTEXT_DOCUMENTS = 10 ∧
    (find_relevant_documents q docs).length ≤ 10 ∧
    (∃ rest, find_relevant_documents q docs ++ rest =
      sorted_documents q docs) ∧
    (find_relevant_meetings q recent).length ≤ 10 ∧
    (∃ rest, find_relevant_meetings q recent ++ rest =
      sorted_meetings q recent) :=
  ⟨rfl, List.length_take_le _ _,
   ⟨(sorted_documents q docs).drop 10, List.take_append_drop _ _⟩,
   List.length_take_le _ _,
   ⟨(sorted_meetings q recent).drop 10, List.take_append_drop _ _⟩⟩

/-- C6: an uncertainty phrase occurring (case-insensitively, via the
lowercased answer) anywhere in the answer forces confidence exactly 0.2,
whatever the question and hence whatever the lexical overlap. -/
theorem C6_uncertainty (answer question p : String)
    (hp : p ∈ uncertainty_phrases)
    (hm : strIn p (pyLower answer) = true) :
    calculate_confidence answer question = 0.2 := by
  have h : uncertainty_phrases.any (fun w => strIn w (pyLower answer)) = true :=
    List.any_eq_true.mpr ⟨p, hp, hm⟩
  unfold calculate_confidence
  rw [if_pos h]

/-- C6 witness: an answer containing "I don't know" evaluated concretely. -/
theorem C6_witness :
    calculate_confidence "I don't know." "What is MongoDB used for?" = 0.2 :=
  C6_uncertainty "I don't know." "What is MongoDB used for?" "i don't know"
    (by decide) (by decide)

/-- C7: the returned confidence always lies in [0.2, 0.95]; it is exactly 0.3
when no context was assembled, and otherwise, when no uncertainty phrase
fires, it is min(0.95, 0.7 + 0.3 * overlap) rounded to two decimals. -/
theorem C7_confidence_range (context answer question : String) :
    1/5 ≤ response_confidence context answer question ∧
    response_confidence context answer question ≤ 19/20 ∧
    (pyStrip context = "" →
      response_confidence context answer question = 3/10) ∧
    (pyStrip context ≠ "" →
      uncertainty_phrases.any (fun p => strIn p (pyLower answer)) = false →
      response_confidence context answer question =
        round2 (min 0.95 (0.7 + term_similarity question answer * 0.3))) := by
  unfold response_confidence
  by_cases h : pyStrip context = ""
  · rw [if_pos h]
    exact ⟨by norm_num, by norm_num, fun _ => by norm_num,
      fun hc => absurd h hc⟩
  · rw [if_neg h]
    obtain ⟨hl, hu⟩ := calculate_confidence_bounds answer question
    refine ⟨hl, hu, fun hc => absurd hc h, fun _ hno => ?_⟩
    have h2 : ¬ (uncertainty_phrases.any
        (fun p => strIn p (pyLower answer)) = true) := by
      simp [hno]
    unfold calculate_confidence
    rw [if_neg h2]

/-- C7 witness: the no-context override and the rounded-overlap formula at
concrete inputs. -/
theorem C7_witness :
    response_confidence "" "answer" "question" = 3/10 ∧
    response_confidence "context" "The budget is fine" "budget" =
      round2 (min 0.95
        (0.7 + term_similarity "budget" "The budget is fine" * 0.3)) :=
  ⟨(C7_confidence_range "" "answer" "question").2.2.1 rfl,
   (C7_confidence_range "context" "The budget is fine" "budget").2.2.2
     (by decide) (by decide)⟩

/-- C8: empty candidate lists make both relevance searches return the empty
list rather than fail, and context building with no id lookup result and no
relevant records returns the empty string. -/
theorem C8_empty_query (q : String) (dg mg : Bool) :
    find_relevant_documents q [] = [] ∧
    find_relevant_meetings q [] = [] ∧
    build_context dg mg none none [] [] = "" := by
  refine ⟨rfl, rfl, ?_⟩
  cases dg <;> cases mg <;> rfl

/-- C9: the requested provider is kept exactly when it is among the available
providers; otherwise the first available provider is used; and with no
available provider the dispatched call fails with the configuration error. -/
theorem C9_provider_dispatch (s : AIProviderState) (requested : String) :
    (requested ∈ get_available_providers s →
      validate_provider s requested = requested) ∧
    (requested ∉ get_available_providers s →
      get_available_providers s ≠ [] →
      validate_provider s requested =
        (get_available_providers s).headD "openai" ∧
      validate_provider s requested ∈ get_available_providers s) ∧
    (get_available_providers s = [] →
      ∃ msg, get_response s (validate_provider s requested) =
        Except.error msg) := by
  refine ⟨fun h => ?_, fun h hne => ?_, fun hav => ?_⟩
  · unfold validate_provider
    rw [if_pos h]
  · unfold validate_provider
    rw [if_neg h]
    refine ⟨rfl, ?_⟩
    cases hl : get_available_providers s with
    | nil => exact absurd hl hne
    | cons a t => simp
  · have ho : s.openai_handler = false := by
      cases hop : s.openai_handler
      · rfl
      · exfalso
        unfold get_available_providers at hav
        rw [hop] at hav
        simp at hav
    refine ⟨"Unsupported or unavailable AI provider: openai", ?_⟩
    simp [validate_provider, hav, get_response, ho]

/-- C9 witness: with no initialized provider, the dispatched call errors. -/
theorem C9_witness :
    ∃ msg, get_response ⟨false, false⟩
      (validate_provider ⟨false, false⟩ "gemini") = Except.error msg :=
  (C9_provider_dispatch ⟨false, false⟩ "gemini").2.2 rfl

/-- C10: every meeting returned by the relevant-meeting search has a strictly
positive relevance score (zero-score meetings are filtered out), while the
relevant-document search returns a concrete zero-score document unfiltered. -/
theorem C10_zero_score_filter :
    (∀ (q : String) (recent : List Meeting) (p : Meeting × ℚ),
        p ∈ find_relevant_meetings q recent → 0 < p.2) ∧
    find_relevant_documents "cat" [bread_document] = [(bread_document, 0)] := by
  constructor
  · intro q recent p hp
    have h1 : p ∈ sorted_meetings q recent := List.mem_of_mem_take hp
    have h2 : p ∈ relevant_scored_meetings q recent :=
      ((sortDesc_perm _ _).mem_iff).mp h1
    unfold relevant_scored_meetings at h2
    rcases List.mem_filterMap.mp h2 with ⟨m, _, hf⟩
    by_cases hc : 0 < count_matches (extract_keywords_all q) (meeting_text m)
    · rw [if_pos hc] at hf
      injection hf with hpm
      rw [← hpm]
      exact relevance_score_pos _ _ hc
    · rw [if_neg hc] at hf
      exact absurd hf (by simp)
  · have hu : unique_documents [bread_document] = [bread_document] := by decide
    have hz : relevance_score (extract_keywords "cat")
        (document_text bread_document) = 0 :=
      relevance_score_eq_zero _ _ (by decide)
    simp [find_relevant_documents, sorted_documents, scored_documents, hu, hz,
      sortDesc, insertDesc, MAX_CONTEXT_DOCUMENTS]

/-- C10 witness: a concrete matching meeting passes the positivity bound. -/
theorem C10_witness :
    (0 : ℚ) < ((budget_meeting, (1 : ℚ)) : Meeting × ℚ).2 := by
  have h1 : count_matches (extract_keywords_all "budget")
      (meeting_text budget_meeting) = 1 := by decide
  have hlen : (extract_keywords_all "budget").length = 1 := by decide
  have he : ¬ ((extract_keywords_all "budget").isEmpty = true) := by decide
  have hs : relevance_score (extract_keywords_all "budget")
      (meeting_text budget_meeting) = 1 := by
    unfold relevance_score
    rw [if_neg he, h1, hlen]
    norm_num
  have hm : find_relevant_meetings "budget" [budget_meeting] =
      [(budget_meeting, 1)] := by
    simp [find_relevant_meetings, sorted_meetings, relevant_scored_meetings,
      h1, hs, sortDesc, insertDesc]
  exact C10_zero_score_filter.1 "budget" [budget_meeting] (budget_meeting, 1)
    (hm ▸ List.mem_singleton_self _)

end MeetingBot
